import Mathlib

/-!
Verification of the authentication form validators of `mod_auth/forms.py`.

The Python validators either return `None` (success) or raise an exception.
We embed each validator as a total function into `Except PyExc Unit`:
`Except.ok ()` models a normal return, `Except.error e` models a raised
exception.  The WTForms machinery, HTTP layer and database engine are out
of scope; the database is modelled as the list of `User` rows, and
`User.query.filter(cond).first()` becomes `List.find?` on that list, which
matches SQLAlchemy's first-match semantics.  The process-wide configuration
values `MIN_PWD_LEN` / `MAX_PWD_LEN` (Python ints, obtained via
`int(config[...])`) are passed as explicit `Int` parameters.
-/

/-- Exceptions a validator can raise: a WTForms `ValidationError` carrying a
user-facing message, or a Python `AttributeError` (reading `.id` off `None`). -/
inductive PyExc where
  | validationError (msg : String)
  | attributeError
deriving DecidableEq, Repr

/-- A row of the external `User` model.  Only the attributes the validators
read are modelled; `is_password_valid` is the user's external hash-verification
method, modelled as an opaque boolean function on the candidate password. -/
structure User where
  id : Int
  name : String
  email : String
  is_password_valid : String → Bool

/-- `unique_username(form, field)`: raises iff some user in the database
already has the submitted name. -/
def unique_username (db : List User) (field_data : String) : Except PyExc Unit :=
  match db.find? (fun u => u.name == field_data) with
  | some _ => Except.error (PyExc.validationError "There is already a user with this name")
  | none => Except.ok ()

/-- The f-string message of the length-range branch of `valid_password`. -/
def lengthRangeMessage (min_pwd_len max_pwd_len : Int) (pass_size : Nat) : String :=
  "Password needs to be between " ++ toString min_pwd_len ++ " and " ++ toString max_pwd_len ++
    " characters long (you entered " ++ toString pass_size ++ ")"

/-- `valid_password(form, field)`: empty check first, then the configured
length-range check. -/
def valid_password (min_pwd_len max_pwd_len : Int) (field_data : String) : Except PyExc Unit :=
  let pass_size := field_data.length
  if pass_size = 0 then
    Except.error (PyExc.validationError "new password cannot be empty")
  else if (pass_size : Int) < min_pwd_len ∨ (pass_size : Int) > max_pwd_len then
    Except.error (PyExc.validationError (lengthRangeMessage min_pwd_len max_pwd_len pass_size))
  else
    Except.ok ()

/-- `email_not_in_use(has_user_field)(form, field)`:
`user_id = -1 if not has_user_field else form.user.id` (reading `.id` off a
missing `form.user` raises `AttributeError`), then raises a `ValidationError`
iff the first user with the submitted email exists, has a different id, and
the submitted email is non-empty. -/
def email_not_in_use (has_user_field : Bool) (form_user : Option User) (db : List User)
    (field_data : String) : Except PyExc Unit :=
  match (if ¬ has_user_field then some (-1 : Int) else form_user.map User.id) with
  | none => Except.error PyExc.attributeError
  | some user_id =>
    match db.find? (fun u => u.email == field_data) with
    | some u =>
      if u.id ≠ user_id ∧ field_data.length > 0 then
        Except.error (PyExc.validationError "This address is already in use")
      else Except.ok ()
    | none => Except.ok ()

namespace CompleteSignupForm

/-- `CompleteSignupForm.validate_password_repeat(form, field)`:
raises iff the repeat differs from `form.password.data`. -/
def validate_password_repeat (password field_data : String) : Except PyExc Unit :=
  if field_data ≠ password then
    Except.error (PyExc.validationError "The password needs to match the new password")
  else Except.ok ()

end CompleteSignupForm

namespace CompleteResetForm

/-- `CompleteResetForm.validate_password_repeat(form, field)`:
raises iff the repeat differs from `form.password.data`. -/
def validate_password_repeat (password field_data : String) : Except PyExc Unit :=
  if field_data ≠ password then
    Except.error (PyExc.validationError "The password needs to match the new password")
  else Except.ok ()

end CompleteResetForm

/-- The submitted state of an `AccountForm`.  `user` is the object handed to
`__init__` (stored as `self.user`); the string fields are the submitted field
data.  `email` models the bound email field object: `some d` is a bound field
with data `d`, `none` the (never actually occurring) absent field, so the
source guard `form.email is not None` is expressible. -/
structure AccountForm where
  user : Option User
  current_password : String
  new_password : String
  new_password_repeat : String
  name : String
  email : Option String

namespace AccountForm

/-- `AccountForm.validate_current_password(form, field)`: raises if no user
object was supplied, then checks the candidate against the stored hash. -/
def validate_current_password (form : AccountForm) (field_data : String) : Except PyExc Unit :=
  match form.user with
  | none => Except.error (PyExc.validationError "User instance not passed to form validation")
  | some u =>
    if ¬ u.is_password_valid field_data then
      Except.error (PyExc.validationError "Invalid password")
    else Except.ok ()

/-- `AccountForm.validate_new_password(form, field)`: returns early when both
the new password and its repeat are empty, otherwise defers to
`valid_password`. -/
def validate_new_password (min_pwd_len max_pwd_len : Int) (form : AccountForm)
    (field_data : String) : Except PyExc Unit :=
  if field_data.length = 0 ∧ form.new_password_repeat.length = 0 then
    Except.ok ()
  else
    valid_password min_pwd_len max_pwd_len field_data

/-- `AccountForm.validate_new_password_repeat(form, field)`: the early return
sits inside an `if form.email is not None:` block, so the skip fires only when
the email field object is present and both new-password fields are empty;
afterwards it raises iff the repeat differs from `form.new_password.data`. -/
def validate_new_password_repeat (form : AccountForm) (field_data : String) : Except PyExc Unit :=
  if form.email ≠ none ∧ field_data.length = 0 ∧ form.new_password.length = 0 then
    Except.ok ()
  else if field_data ≠ form.new_password then
    Except.error (PyExc.validationError "The password needs to match the new password")
  else Except.ok ()

end AccountForm

/-- The simpler repeat-validator described by the spec: unconditionally skip
when both the new password and its repeat are empty, otherwise raise exactly
when the repeat differs from the new password.  No email guard. -/
def simple_new_password_repeat (new_password field_data : String) : Except PyExc Unit :=
  if field_data.length = 0 ∧ new_password.length = 0 then
    Except.ok ()
  else if field_data ≠ new_password then
    Except.error (PyExc.validationError "The password needs to match the new password")
  else Except.ok ()

deriving instance DecidableEq for Except

/-! ### Helper lemmas and sample data -/

/-- A string of length zero is the empty string. -/
theorem string_length_eq_zero_iff (s : String) : s.length = 0 ↔ s = "" := by
  constructor
  · intro h
    cases s with
    | mk data =>
      cases data with
      | nil => rfl
      | cons c cs => simp [String.length] at h
  · intro h
    subst h
    rfl

/-- The length-range message never coincides with the empty-password message. -/
theorem lengthRangeMessage_ne_empty_msg (min_pwd_len max_pwd_len : Int) (n : Nat) :
    lengthRangeMessage min_pwd_len max_pwd_len n ≠ "new password cannot be empty" := by
  intro h
  have hd := congrArg String.data h
  rw [lengthRangeMessage] at hd
  simp only [String.data_append, List.cons_append, List.nil_append, List.cons.injEq] at hd
  exact absurd hd.1 (by decide)

/-- Sample database row used by the concrete witnesses. -/
def sampleUser : User :=
  { id := 1, name := "alice", email := "alice@example.com",
    is_password_valid := fun s => s == "hunter2x" }

/-- A second sample row with a different id, name and email. -/
def otherUser : User :=
  { id := 2, name := "bob", email := "bob@example.com",
    is_password_valid := fun s => s == "pw2" }

/-- Sample database holding both sample rows. -/
def sampleDb : List User := [sampleUser, otherUser]

/-- A submitted account form associated with `sampleUser`, both new-password
fields empty. -/
def sampleAccountForm : AccountForm :=
  { user := some sampleUser, current_password := "hunter2x", new_password := "",
    new_password_repeat := "", name := "alice", email := some "alice@example.com" }

/-- A submitted account form with no associated user object. -/
def sampleFormNoUser : AccountForm :=
  { user := none, current_password := "x", new_password := "",
    new_password_repeat := "", name := "n", email := some "n@example.com" }

/-- An account form with an empty new password but a non-empty repeat. -/
def sampleFormEmptyNew : AccountForm :=
  { sampleAccountForm with new_password_repeat := "abcdef" }

/-! ### Claim theorems -/

/-- C1: when both `new_password` and `new_password_repeat` are empty, neither
`validate_new_password` nor `validate_new_password_repeat` raises, while
`validate_current_password` runs with an outcome independent of the two
new-password fields. -/
theorem accountForm_both_new_fields_empty_skip (min_pwd_len max_pwd_len : Int)
    (form : AccountForm) (np npr : String)
    (h1 : form.new_password = "") (h2 : form.new_password_repeat = "") :
    AccountForm.validate_new_password min_pwd_len max_pwd_len form form.new_password =
      Except.ok () ∧
    AccountForm.validate_new_password_repeat form form.new_password_repeat = Except.ok () ∧
    AccountForm.validate_current_password
        { form with new_password := np, new_password_repeat := npr } form.current_password =
      AccountForm.validate_current_password form form.current_password := by
  refine ⟨?_, ?_, rfl⟩
  · rw [AccountForm.validate_new_password, h1, h2]
    simp
  · rw [AccountForm.validate_new_password_repeat, h1, h2]
    split
    · rfl
    · simp

/-- C1 witness: the skip and the independence at a concrete form. -/
theorem accountForm_both_new_fields_empty_skip_witness :
    AccountForm.validate_new_password 6 16 sampleAccountForm sampleAccountForm.new_password =
      Except.ok () ∧
    AccountForm.validate_new_password_repeat sampleAccountForm
        sampleAccountForm.new_password_repeat = Except.ok () ∧
    AccountForm.validate_current_password
        { sampleAccountForm with new_password := "x", new_password_repeat := "y" }
        sampleAccountForm.current_password =
      AccountForm.validate_current_password sampleAccountForm sampleAccountForm.current_password :=
  accountForm_both_new_fields_empty_skip 6 16 sampleAccountForm "x" "y" rfl rfl

/-- C2 counterexample: the empty password is strictly shorter than a positive
`MIN_PWD_LEN`, yet `valid_password` does not produce the length-range message
there (the empty-password check fires first). -/
theorem valid_password_range_counterexample :
    ((String.length "" : Int) < 6 ∨ (String.length "" : Int) > 16) ∧
    valid_password 6 16 "" ≠
      Except.error (PyExc.validationError (lengthRangeMessage 6 16 (String.length ""))) := by
  decide

/-- C2 (amended to non-empty passwords): every non-empty password whose length
lies strictly outside `[MIN_PWD_LEN, MAX_PWD_LEN]` makes `valid_password` raise
a `ValidationError` carrying the length-range message. -/
theorem valid_password_out_of_range (min_pwd_len max_pwd_len : Int) (field_data : String)
    (hne : field_data ≠ "")
    (hrange : (field_data.length : Int) < min_pwd_len ∨ (field_data.length : Int) > max_pwd_len) :
    valid_password min_pwd_len max_pwd_len field_data =
      Except.error
        (PyExc.validationError (lengthRangeMessage min_pwd_len max_pwd_len field_data.length)) := by
  rw [valid_password]
  have h0 : field_data.length ≠ 0 := fun h => hne ((string_length_eq_zero_iff field_data).mp h)
  simp [h0, hrange]

/-- C2 witness: a three-character password against a `[6, 16]` range. -/
theorem valid_password_out_of_range_witness :
    valid_password 6 16 "abc" =
      Except.error
        (PyExc.validationError (lengthRangeMessage 6 16 (String.length "abc"))) :=
  valid_password_out_of_range 6 16 "abc" (by decide) (by decide)

/-- C3: for every configuration, the empty password makes `valid_password`
raise the empty-password message, and the length-range message (which always
differs from it) is never produced for the empty password. -/
theorem valid_password_empty (min_pwd_len max_pwd_len : Int) :
    valid_password min_pwd_len max_pwd_len "" =
      Except.error (PyExc.validationError "new password cannot be empty") ∧
    lengthRangeMessage min_pwd_len max_pwd_len (String.length "") ≠
      "new password cannot be empty" := by
  constructor
  · rw [valid_password]
    simp
  · exact lengthRangeMessage_ne_empty_msg min_pwd_len max_pwd_len (String.length "")

/-- C4: in both `CompleteSignupForm` and `CompleteResetForm`, the repeat
validator raises exactly when the repeat differs from the primary password,
and returns normally exactly when the two are equal. -/
theorem validate_password_repeat_iff (password field_data : String) :
    (CompleteSignupForm.validate_password_repeat password field_data = Except.ok () ↔
      field_data = password) ∧
    (CompleteSignupForm.validate_password_repeat password field_data =
        Except.error (PyExc.validationError "The password needs to match the new password") ↔
      field_data ≠ password) ∧
    (CompleteResetForm.validate_password_repeat password field_data = Except.ok () ↔
      field_data = password) ∧
    (CompleteResetForm.validate_password_repeat password field_data =
        Except.error (PyExc.validationError "The password needs to match the new password") ↔
      field_data ≠ password) := by
  unfold CompleteSignupForm.validate_password_repeat CompleteResetForm.validate_password_repeat
  by_cases h : field_data = password <;> simp [h]

/-- C5: `validate_current_password` raises when no user object was supplied to
the form, raises the invalid-password message when the stored-hash check
rejects the candidate, and returns normally when it accepts it. -/
theorem validate_current_password_cases (form : AccountForm) (field_data : String) :
    (form.user = none →
      AccountForm.validate_current_password form field_data =
        Except.error (PyExc.validationError "User instance not passed to form validation")) ∧
    (∀ u, form.user = some u →
      (u.is_password_valid field_data = false →
        AccountForm.validate_current_password form field_data =
          Except.error (PyExc.validationError "Invalid password")) ∧
      (u.is_password_valid field_data = true →
        AccountForm.validate_current_password form field_data = Except.ok ())) := by
  unfold AccountForm.validate_current_password
  refine ⟨fun h => by rw [h], fun u h => ?_⟩
  rw [h]
  constructor <;> intro hv <;> simp [hv]

/-- C5 witness: the three cases at concrete forms. -/
theorem validate_current_password_cases_witness :
    AccountForm.validate_current_password sampleFormNoUser "x" =
      Except.error (PyExc.validationError "User instance not passed to form validation") ∧
    AccountForm.validate_current_password sampleAccountForm "wrong" =
      Except.error (PyExc.validationError "Invalid password") ∧
    AccountForm.validate_current_password sampleAccountForm "hunter2x" = Except.ok () :=
  ⟨(validate_current_password_cases sampleFormNoUser "x").1 rfl,
   ((validate_current_password_cases sampleAccountForm "wrong").2 sampleUser rfl).1 (by decide),
   ((validate_current_password_cases sampleAccountForm "hunter2x").2 sampleUser rfl).2 (by decide)⟩

/-- Reduction of `email_not_in_use` for the `AccountForm` instantiation:
`has_user_field = True` and a supplied user. -/
theorem email_not_in_use_true_some (u : User) (db : List User) (field_data : String) :
    email_not_in_use true (some u) db field_data =
      match db.find? (fun w => w.email == field_data) with
      | some w =>
        if w.id ≠ u.id ∧ field_data.length > 0 then
          Except.error (PyExc.validationError "This address is already in use")
        else Except.ok ()
      | none => Except.ok () := rfl

/-- C6: over a database in which an email determines the user id, a non-empty
submitted email belonging to a user other than the associated one makes
`email_not_in_use` raise, while the associated user's own email passes. -/
theorem email_not_in_use_account (u : User) (db : List User) (field_data : String)
    (huniq : ∀ a ∈ db, ∀ b ∈ db, a.email = b.email → a.id = b.id) :
    (field_data ≠ "" → (∃ v ∈ db, v.email = field_data ∧ v.id ≠ u.id) →
      email_not_in_use true (some u) db field_data =
        Except.error (PyExc.validationError "This address is already in use")) ∧
    (u ∈ db → field_data = u.email →
      email_not_in_use true (some u) db field_data = Except.ok ()) := by
  constructor
  · intro hne hex
    obtain ⟨v, hvmem, hvemail, hvid⟩ := hex
    have hsome : (db.find? (fun w => w.email == field_data)).isSome :=
      List.find?_isSome.mpr ⟨v, hvmem, by simp [hvemail]⟩
    obtain ⟨w, hw⟩ := Option.isSome_iff_exists.mp hsome
    have hwp : w.email = field_data := by simpa using List.find?_some hw
    have hwmem := List.mem_of_find?_eq_some hw
    have hwid : w.id = v.id := huniq w hwmem v hvmem (by rw [hwp, hvemail])
    have hlen : field_data.length > 0 :=
      Nat.pos_of_ne_zero (fun h => hne ((string_length_eq_zero_iff _).mp h))
    rw [email_not_in_use_true_some, hw]
    exact if_pos ⟨hwid ▸ hvid, hlen⟩
  · intro hmem heq
    subst heq
    have hsome : (db.find? (fun w => w.email == u.email)).isSome :=
      List.find?_isSome.mpr ⟨u, hmem, by simp⟩
    obtain ⟨w, hw⟩ := Option.isSome_iff_exists.mp hsome
    have hwmem := List.mem_of_find?_eq_some hw
    have hwid : w.id = u.id := huniq w hwmem u hmem (by simpa using List.find?_some hw)
    rw [email_not_in_use_true_some, hw]
    exact if_neg (fun hc => hc.1 hwid)

/-- C6 witness: in the two-user sample database, submitting the other user's
email raises, submitting the associated user's own email passes. -/
theorem email_not_in_use_account_witness :
    email_not_in_use true (some sampleUser) sampleDb "bob@example.com" =
      Except.error (PyExc.validationError "This address is already in use") ∧
    email_not_in_use true (some sampleUser) sampleDb "alice@example.com" = Except.ok () :=
  ⟨(email_not_in_use_account sampleUser sampleDb "bob@example.com" (by decide)).1 (by decide)
      ⟨otherUser, List.Mem.tail _ (List.Mem.head _), rfl, by decide⟩,
   (email_not_in_use_account sampleUser sampleDb "alice@example.com" (by decide)).2
      (List.Mem.head _) rfl⟩

/-- C7: for every database state and every configuration of the closure, the
empty submitted email never produces a `ValidationError` — the outcome is
either a normal return or (only when a user field was promised but missing)
an `AttributeError`. -/
theorem email_not_in_use_empty_input (has_user_field : Bool) (form_user : Option User)
    (db : List User) :
    email_not_in_use has_user_field form_user db "" = Except.ok () ∨
    email_not_in_use has_user_field form_user db "" = Except.error PyExc.attributeError := by
  unfold email_not_in_use
  split
  · exact Or.inr rfl
  · split
    · exact Or.inl (by simp)
    · exact Or.inl rfl

/-- C8: `unique_username` raises the duplicate-name message exactly when some
user in the database has the submitted name, and returns normally exactly when
no user does. -/
theorem unique_username_iff (db : List User) (field_data : String) :
    (unique_username db field_data =
        Except.error (PyExc.validationError "There is already a user with this name") ↔
      ∃ u ∈ db, u.name = field_data) ∧
    (unique_username db field_data = Except.ok () ↔ ∀ u ∈ db, u.name ≠ field_data) := by
  unfold unique_username
  cases hf : db.find? (fun u => u.name == field_data) with
  | none =>
    have hall : ∀ x ∈ db, x.name ≠ field_data := by
      have := List.find?_eq_none.mp hf
      simpa using this
    exact ⟨iff_of_false (by simp) (fun ⟨x, hx, he⟩ => hall x hx he), iff_of_true rfl hall⟩
  | some w =>
    have hwmem := List.mem_of_find?_eq_some hf
    have hwname : w.name = field_data := by simpa using List.find?_some hf
    exact ⟨iff_of_true rfl ⟨w, hwmem, hwname⟩,
      iff_of_false (by simp) (fun hall => hall w hwmem hwname)⟩

/-- C9: when `new_password` is empty but `new_password_repeat` is not, the
optional-password skip does not apply: `validate_new_password` calls
`valid_password` on the empty string and raises the empty-password message. -/
theorem validate_new_password_empty_with_repeat (min_pwd_len max_pwd_len : Int)
    (form : AccountForm) (h1 : form.new_password = "") (h2 : form.new_password_repeat ≠ "") :
    AccountForm.validate_new_password min_pwd_len max_pwd_len form form.new_password =
      Except.error (PyExc.validationError "new password cannot be empty") := by
  rw [AccountForm.validate_new_password, h1]
  have hr : form.new_password_repeat.length ≠ 0 :=
    fun h => h2 ((string_length_eq_zero_iff _).mp h)
  rw [if_neg (fun hc => hr hc.2), valid_password]
  simp

/-- C9 witness: the concrete form with an empty new password and the repeat
`abcdef`. -/
theorem validate_new_password_empty_with_repeat_witness :
    AccountForm.validate_new_password 6 16 sampleFormEmptyNew sampleFormEmptyNew.new_password =
      Except.error (PyExc.validationError "new password cannot be empty") :=
  validate_new_password_empty_with_repeat 6 16 sampleFormEmptyNew rfl (by decide)

/-- C10: the `form.email is not None` guard in `validate_new_password_repeat`
is redundant: the validator coincides with the simpler guard-free validator on
every form state, and its outcome never depends on the email field. -/
theorem validate_new_password_repeat_email_guard_redundant (form : AccountForm)
    (field_data : String) (e : Option String) :
    AccountForm.validate_new_password_repeat form field_data =
      simple_new_password_repeat form.new_password field_data ∧
    AccountForm.validate_new_password_repeat { form with email := e } field_data =
      AccountForm.validate_new_password_repeat form field_data := by
  have key : ∀ em : Option String,
      AccountForm.validate_new_password_repeat { form with email := em } field_data =
        simple_new_password_repeat form.new_password field_data := by
    intro em
    unfold AccountForm.validate_new_password_repeat simple_new_password_repeat
    by_cases hb : field_data.length = 0 ∧ form.new_password.length = 0
    · have hfe : field_data = "" := (string_length_eq_zero_iff _).mp hb.1
      have hne : form.new_password = "" := (string_length_eq_zero_iff _).mp hb.2
      cases em with
      | none => simp [hfe, hne]
      | some d => simp [hfe, hne]
    · simp [hb]
  exact ⟨key form.email, (key e).trans (key form.email).symm⟩
